import Mathlib

/-
Shallow embedding of the "colocacion" services of the selk_warehouse_api
repository: the optimistic-update manager, the print-job queue, the adaptive
product cache and the Odoo sync engine.  Redis-backed ephemeral state is
modelled as explicit association lists / finite maps with expiry timestamps
(milliseconds, as produced by Date.now()); `setex key ttlSeconds v` becomes an
entry carrying expiry `now + ttlSeconds * 1000`.  Each service method becomes a
pure state-transformer returning the new state together with the value the
TypeScript method returns.
-/

namespace Selk

/-- Local mirror of an Odoo product (src/models/Product).  `location` and
`last_odoo_sync` are nullable columns, modelled as `Option`; timestamps are
epoch milliseconds. -/
structure Product where
  id : String
  barcode : String
  reference : String
  description : String
  location : Option String
  stock : Int
  status : String
  odooProductId : Nat
  updatedAt : Nat
  lastOdooSync : Option Nat
  deriving Repr, DecidableEq

/-- The payload stored under `optimistic_update:<id>`
(OptimisticUpdateData in optimistic-update.service.ts).  `newLocation` is
`Option (Option String)` because `newData.location?: string | null` can be
absent (outer `none`) or present-and-null (`some none`). -/
structure OptimisticUpdateData where
  productId : String
  userId : String
  deviceId : String
  origLocation : Option String
  origStock : Int
  origLastSync : Option Nat
  newLocation : Option (Option String)
  newStock : Option Int
  timestamp : Nat
  confirmed : Bool
  rollbackReason : Option String
  deriving Repr, DecidableEq

/-- One entry of the per-(user, device) undo/redo stack
(UndoRedoOperation in optimistic-update.service.ts). -/
structure UndoRedoOperation where
  id : String
  productId : String
  userId : String
  deviceId : String
  beforeLocation : Option String
  beforeStock : Int
  afterLocation : Option String
  afterStock : Int
  timestamp : Nat
  canUndo : Bool
  canRedo : Bool
  deriving Repr, DecidableEq

/-- Combined state touched by OptimisticUpdateService: the
`optimistic_update:<id>` redis keys, the Product table, and the
`undo_redo:<user>:<device>` stacks. -/
structure OptimisticState where
  updates : String → Option OptimisticUpdateData
  products : String → Option Product
  undoRedo : String → String → List UndoRedoOperation

/-- OptimisticUpdateService.createOptimisticUpdate: snapshot the product's
current location/stock/last_odoo_sync into a fresh unconfirmed record stored
under `updateId`.  The id itself is produced from Date.now plus randomness in
the source, so it is taken as a parameter here.  The product store is not
touched. -/
def createOptimisticUpdate (s : OptimisticState) (product : Product)
    (newLocation : Option (Option String)) (newStock : Option Int)
    (userId deviceId updateId : String) (now : Nat) : OptimisticState :=
  let d : OptimisticUpdateData :=
    { productId := product.id
      userId := userId
      deviceId := deviceId
      origLocation := product.location
      origStock := product.stock
      origLastSync := product.lastOdooSync
      newLocation := newLocation
      newStock := newStock
      timestamp := now
      confirmed := false
      rollbackReason := none }
  { s with updates := fun k => if k = updateId then some d else s.updates k }

/-- The UndoRedoOperation built inside createUndoRedoOperation: before-state is
the staged snapshot, after-state takes `newData` fields when present
(`!== undefined`) and falls back to the original values. -/
def mkUndoRedoOperation (d : OptimisticUpdateData) (operationId : String) :
    UndoRedoOperation :=
  { id := operationId
    productId := d.productId
    userId := d.userId
    deviceId := d.deviceId
    beforeLocation := d.origLocation
    beforeStock := d.origStock
    afterLocation := d.newLocation.getD d.origLocation
    afterStock := d.newStock.getD d.origStock
    timestamp := d.timestamp
    canUndo := true
    canRedo := false }

/-- The `operations.forEach((op, index) => { if (index > 0) op.canRedo = false })`
step: every entry except the head loses redo-eligibility. -/
def clearRedoTail : List UndoRedoOperation → List UndoRedoOperation
  | [] => []
  | op :: rest => op :: rest.map (fun o => { o with canRedo := false })

/-- The list manipulation of createUndoRedoOperation: unshift the new
operation, truncate to the newest MAX_UNDO_OPERATIONS (10) entries, then clear
`canRedo` on every older entry. -/
def pushOperation (ops : List UndoRedoOperation) (op : UndoRedoOperation) :
    List UndoRedoOperation :=
  clearRedoTail ((op :: ops).take 10)

/-- OptimisticUpdateService.createUndoRedoOperation as a state transformer on
the actor+device stack. -/
def createUndoRedoOperation (s : OptimisticState) (d : OptimisticUpdateData)
    (operationId : String) : OptimisticState :=
  let op := mkUndoRedoOperation d operationId
  { s with
    undoRedo := fun u dev =>
      if u = d.userId ∧ dev = d.deviceId then
        pushOperation (s.undoRedo u dev) op
      else s.undoRedo u dev }

/-- OptimisticUpdateService.confirmOptimisticUpdate: missing record fails;
otherwise the record is rewritten with `confirmed := true` and an undo/redo
operation is pushed.  Returns the boolean the method returns. -/
def confirmOptimisticUpdate (s : OptimisticState) (updateId operationId : String) :
    OptimisticState × Bool :=
  match s.updates updateId with
  | none => (s, false)
  | some d =>
    let d2 := { d with confirmed := true }
    let s2 : OptimisticState :=
      { s with updates := fun k => if k = updateId then some d2 else s.updates k }
    (createUndoRedoOperation s2 d2 operationId, true)

/-- OptimisticUpdateService.rollbackOptimisticUpdate: missing record or a
confirmed record fails without touching anything; otherwise the product (when
found) gets its location/stock/last_odoo_sync restored from the staged
snapshot, and the record is rewritten with the rollback reason (note: its
`confirmed` flag stays false). -/
def rollbackOptimisticUpdate (s : OptimisticState) (updateId reason : String) :
    OptimisticState × Bool :=
  match s.updates updateId with
  | none => (s, false)
  | some d =>
    if d.confirmed then (s, false)
    else
      let s2 : OptimisticState :=
        match s.products d.productId with
        | none => s
        | some p =>
          let p2 := { p with
            location := d.origLocation
            stock := d.origStock
            lastOdooSync := d.origLastSync }
          { s with products := fun k => if k = d.productId then some p2 else s.products k }
      let d2 := { d with rollbackReason := some reason }
      ({ s2 with updates := fun k => if k = updateId then some d2 else s2.updates k }, true)

/-- Outcome record of undo/redo (`{success, operation?, product?}`). -/
structure UndoRedoOutcome where
  success : Bool
  operation : Option UndoRedoOperation
  product : Option Product
  deriving Repr, DecidableEq

/-- Flip the first undoable entry to `canUndo := false, canRedo := true`,
mirroring the in-place mutation of the operation found by
`operations.find((op) => op.canUndo)`. -/
def flipUndoFirst : List UndoRedoOperation → List UndoRedoOperation
  | [] => []
  | op :: rest =>
    if op.canUndo then { op with canUndo := false, canRedo := true } :: rest
    else op :: flipUndoFirst rest

/-- Flip the first redoable entry to `canUndo := true, canRedo := false`. -/
def flipRedoFirst : List UndoRedoOperation → List UndoRedoOperation
  | [] => []
  | op :: rest =>
    if op.canRedo then { op with canUndo := true, canRedo := false } :: rest
    else op :: flipRedoFirst rest

/-- OptimisticUpdateService.undoLastOperation: find the most recent (front of
the newest-first stack) operation with `canUndo`, write its before-state onto
the product with a fresh last_odoo_sync, and flip its flags. -/
def undoLastOperation (s : OptimisticState) (userId deviceId : String) (now : Nat) :
    OptimisticState × UndoRedoOutcome :=
  let ops := s.undoRedo userId deviceId
  match ops.find? (fun op => op.canUndo) with
  | none => (s, ⟨false, none, none⟩)
  | some op =>
    match s.products op.productId with
    | none => (s, ⟨false, none, none⟩)
    | some p =>
      let p2 := { p with
        location := op.beforeLocation
        stock := op.beforeStock
        lastOdooSync := some now }
      let op2 := { op with canUndo := false, canRedo := true }
      ( { s with
          products := fun k => if k = op.productId then some p2 else s.products k
          undoRedo := fun u dev =>
            if u = userId ∧ dev = deviceId then flipUndoFirst ops else s.undoRedo u dev },
        ⟨true, some op2, some p2⟩ )

/-- OptimisticUpdateService.redoLastOperation: the mirror of undo, applying the
after-state of the most recent redoable operation. -/
def redoLastOperation (s : OptimisticState) (userId deviceId : String) (now : Nat) :
    OptimisticState × UndoRedoOutcome :=
  let ops := s.undoRedo userId deviceId
  match ops.find? (fun op => op.canRedo) with
  | none => (s, ⟨false, none, none⟩)
  | some op =>
    match s.products op.productId with
    | none => (s, ⟨false, none, none⟩)
    | some p =>
      let p2 := { p with
        location := op.afterLocation
        stock := op.afterStock
        lastOdooSync := some now }
      let op2 := { op with canUndo := true, canRedo := false }
      ( { s with
          products := fun k => if k = op.productId then some p2 else s.products k
          undoRedo := fun u dev =>
            if u = userId ∧ dev = deviceId then flipRedoFirst ops else s.undoRedo u dev },
        ⟨true, some op2, some p2⟩ )

/-- C1: staging an optimistic update snapshots the product's location, stock
and last-sync fields; rolling back the unconfirmed update id writes exactly
that snapshot back onto the (possibly meanwhile mutated) product record, and
staging itself never touches the product store — so after rollback the
product's location/stock/last-sync equal its state before the stage. -/
theorem c1_rollback_restores_snapshot (s : OptimisticState) (p q : Product)
    (newLocation : Option (Option String)) (newStock : Option Int)
    (userId deviceId updateId reason : String) (now : Nat) :
    let s1 := createOptimisticUpdate s p newLocation newStock userId deviceId updateId now
    let s2 : OptimisticState :=
      { s1 with products := fun k => if k = p.id then some q else s1.products k }
    let r := rollbackOptimisticUpdate s2 updateId reason
    s1.products = s.products ∧
    r.2 = true ∧
    r.1.products p.id =
      some { q with location := p.location, stock := p.stock, lastOdooSync := p.lastOdooSync } := by
  refine ⟨rfl, ?_, ?_⟩ <;>
    simp [createOptimisticUpdate, rollbackOptimisticUpdate]

/-- A sample product record used in the concrete scenarios below. -/
def sampleProduct : Product :=
  { id := "p1"
    barcode := "1234567890123"
    reference := "R1"
    description := "D1"
    location := some "A010"
    stock := 10
    status := "active"
    odooProductId := 42
    updatedAt := 1000
    lastOdooSync := none }

/-- Optimistic-update state whose product store holds exactly `sampleProduct`. -/
def sampleOptState : OptimisticState :=
  { updates := fun _ => none
    products := fun k => if k = "p1" then some sampleProduct else none
    undoRedo := fun _ _ => [] }

/-- C5 counterexample: an update id is not single-use after rollback.  Staging
then rolling back leaves the stored record unconfirmed, so a second rollback on
the same id succeeds again, and a subsequent confirm of the rolled-back id also
succeeds — even pushing a fresh undo/redo operation for it. -/
theorem c5_counterexample :
    let s1 := createOptimisticUpdate sampleOptState sampleProduct
      (some (some "B215")) (some 5) "u1" "d1" "up1" 1000
    let r1 := rollbackOptimisticUpdate s1 "up1" "fallo de escritura"
    let r2 := rollbackOptimisticUpdate r1.1 "up1" "segundo rollback"
    let c := confirmOptimisticUpdate r2.1 "up1" "op1"
    r1.2 = true ∧ r2.2 = true ∧ c.2 = true ∧
    (c.1.undoRedo "u1" "d1").length = 1 := by
  decide

/-- C5 (amended): the staged-to-confirmed transition is final — rollback on an
already-confirmed record returns failure and leaves the state untouched.  A
rollback, however, does not consume the id: the record it rewrites is still
unconfirmed, so a further rollback on the same id succeeds again while the
record lives. -/
theorem c5_amended_thm (s : OptimisticState) (updateId reason reason2 : String)
    (d : OptimisticUpdateData) (hrec : s.updates updateId = some d) :
    (d.confirmed = true → rollbackOptimisticUpdate s updateId reason = (s, false)) ∧
    (d.confirmed = false →
      (rollbackOptimisticUpdate s updateId reason).2 = true ∧
      ((rollbackOptimisticUpdate s updateId reason).1).updates updateId =
        some { d with rollbackReason := some reason } ∧
      (rollbackOptimisticUpdate
        (rollbackOptimisticUpdate s updateId reason).1 updateId reason2).2 = true) := by
  constructor
  · intro hc
    simp [rollbackOptimisticUpdate, hrec, hc]
  · intro hc
    cases hp : s.products d.productId <;>
      simp [rollbackOptimisticUpdate, hrec, hc, hp]

/-- Optimistic-update record already confirmed, for instantiating
`c5_amended_thm`. -/
def c5ConfirmedData : OptimisticUpdateData :=
  { productId := "p1"
    userId := "u1"
    deviceId := "d1"
    origLocation := some "A010"
    origStock := 10
    origLastSync := none
    newLocation := some (some "B215")
    newStock := some 5
    timestamp := 1000
    confirmed := true
    rollbackReason := none }

/-- State holding one confirmed and one unconfirmed optimistic record. -/
def c5WitnessState : OptimisticState :=
  { updates := fun k =>
      if k = "upC" then some c5ConfirmedData
      else if k = "upU" then some { c5ConfirmedData with confirmed := false }
      else none
    products := fun _ => none
    undoRedo := fun _ _ => [] }

theorem c5_witness :
    rollbackOptimisticUpdate c5WitnessState "upC" "r" = (c5WitnessState, false) ∧
    (rollbackOptimisticUpdate c5WitnessState "upU" "r").2 = true := by
  refine ⟨(c5_amended_thm c5WitnessState "upC" "r" "r2" c5ConfirmedData rfl).1 rfl, ?_⟩
  exact ((c5_amended_thm c5WitnessState "upU" "r" "r2"
    { c5ConfirmedData with confirmed := false } rfl).2 rfl).1

/-- clearRedoTail only rewrites flags, so it preserves length. -/
theorem clearRedoTail_length (ops : List UndoRedoOperation) :
    (clearRedoTail ops).length = ops.length := by
  cases ops <;> simp [clearRedoTail]

/-- A push never leaves more than 10 entries. -/
theorem pushOperation_length_le (ops : List UndoRedoOperation)
    (op : UndoRedoOperation) : (pushOperation ops op).length ≤ 10 := by
  simp only [pushOperation, clearRedoTail_length, List.length_take]
  omega

/-- Folding any sequence of pushes over a stack of at most 10 entries keeps it
at most 10 entries. -/
theorem foldl_pushOperation_length_le (ds : List (OptimisticUpdateData × String))
    (acc : List UndoRedoOperation) (hacc : acc.length ≤ 10) :
    (ds.foldl (fun l x => pushOperation l (mkUndoRedoOperation x.1 x.2)) acc).length ≤ 10 := by
  induction ds generalizing acc with
  | nil => simpa using hacc
  | cons x ds ih =>
    simpa using ih (pushOperation acc (mkUndoRedoOperation x.1 x.2))
      (pushOperation_length_le _ _)

/-- C8: the per-(actor, device) undo/redo stack is bounded: a push keeps it at
no more than 10 entries and any sequence of confirmed pushes starting from the
empty stack stays within 10; pushing onto a full stack of 10 evicts the oldest
entry; and the freshly pushed operation is undoable and not redoable while
every older surviving entry loses redo-eligibility (linear history). -/
theorem c8_bounded_history (d : OptimisticUpdateData) (operationId : String)
    (ops : List UndoRedoOperation) (ds : List (OptimisticUpdateData × String)) :
    (pushOperation ops (mkUndoRedoOperation d operationId)).length ≤ 10 ∧
    (ds.foldl (fun l x => pushOperation l (mkUndoRedoOperation x.1 x.2)) []).length ≤ 10 ∧
    (ops.length = 10 →
      pushOperation ops (mkUndoRedoOperation d operationId) =
        mkUndoRedoOperation d operationId ::
          (ops.take 9).map (fun o => { o with canRedo := false })) ∧
    (pushOperation ops (mkUndoRedoOperation d operationId)).head? =
      some (mkUndoRedoOperation d operationId) ∧
    (mkUndoRedoOperation d operationId).canUndo = true ∧
    (mkUndoRedoOperation d operationId).canRedo = false ∧
    (∀ o ∈ (pushOperation ops (mkUndoRedoOperation d operationId)).tail,
      o.canRedo = false) := by
  refine ⟨pushOperation_length_le _ _,
    foldl_pushOperation_length_le ds [] (by simp), ?_, ?_, rfl, rfl, ?_⟩
  · intro hlen
    simp [pushOperation, clearRedoTail, List.take_succ_cons]
  · simp [pushOperation, clearRedoTail, List.take_succ_cons]
  · intro o ho
    simp only [pushOperation, List.take_succ_cons, clearRedoTail, List.tail_cons,
      List.mem_map] at ho
    obtain ⟨a, -, rfl⟩ := ho
    rfl

/-- A sample stack entry for instantiating `c8_bounded_history` on a full
stack. -/
def c8SampleOp : UndoRedoOperation :=
  { id := "o0"
    productId := "p1"
    userId := "u1"
    deviceId := "d1"
    beforeLocation := some "A010"
    beforeStock := 10
    afterLocation := some "B215"
    afterStock := 5
    timestamp := 1
    canUndo := false
    canRedo := true }

theorem c8_witness :
    (pushOperation (List.replicate 10 c8SampleOp)
      (mkUndoRedoOperation c5ConfirmedData "opX")).length ≤ 10 ∧
    pushOperation (List.replicate 10 c8SampleOp)
        (mkUndoRedoOperation c5ConfirmedData "opX") =
      mkUndoRedoOperation c5ConfirmedData "opX" ::
        ((List.replicate 10 c8SampleOp).take 9).map
          (fun o => { o with canRedo := false }) := by
  have h := c8_bounded_history c5ConfirmedData "opX" (List.replicate 10 c8SampleOp) []
  exact ⟨h.1, h.2.2.1 (by simp)⟩

/-- Product state after the first confirmed update of the C7 scenario. -/
def c7ProductB : Product := { sampleProduct with location := some "B111", stock := 2 }

/-- Product state after the second confirmed update of the C7 scenario. -/
def c7ProductC : Product := { sampleProduct with location := some "C212", stock := 3 }

/-- C7 counterexample: the undo/redo inverse law fails once a newer stack entry
is redo-eligible.  Two updates are staged, confirmed and durably applied, then
undo is called twice: the second undo targets the older operation U (after
state location B111, stock 2), but the following redo picks the newest
redo-eligible entry and reapplies (C212, 3) — so redo after undo(U) does not
restore U's after-state. -/
theorem c7_counterexample :
    let s1 := createOptimisticUpdate sampleOptState sampleProduct
      (some (some "B111")) (some 2) "u" "d" "up1" 100
    let c1 := confirmOptimisticUpdate s1 "up1" "o1"
    let sB : OptimisticState :=
      { c1.1 with products := fun k => if k = "p1" then some c7ProductB else none }
    let s2 := createOptimisticUpdate sB c7ProductB
      (some (some "C212")) (some 3) "u" "d" "up2" 200
    let c2 := confirmOptimisticUpdate s2 "up2" "o2"
    let sC : OptimisticState :=
      { c2.1 with products := fun k => if k = "p1" then some c7ProductC else none }
    let u1 := undoLastOperation sC "u" "d" 300
    let u2 := undoLastOperation u1.1 "u" "d" 400
    let r := redoLastOperation u2.1 "u" "d" 500
    (u2.2.operation).map (fun o => (o.afterLocation, o.afterStock)) =
      some (some "B111", (2 : Int)) ∧
    r.2.success = true ∧
    (r.1.products "p1").map (fun q => (q.location, q.stock)) =
      some (some "C212", (3 : Int)) ∧
    (r.1.products "p1").map (fun q => (q.location, q.stock)) ≠
      some (some "B111", (2 : Int)) := by
  decide

/-- find? for undoability skips a head segment of non-undoable entries. -/
theorem find_canUndo_append (pre rest : List UndoRedoOperation)
    (op : UndoRedoOperation) (hpre : ∀ o ∈ pre, o.canUndo = false)
    (hop : op.canUndo = true) :
    (pre ++ op :: rest).find? (fun o => o.canUndo) = some op := by
  induction pre with
  | nil => simp [List.find?, hop]
  | cons a pre ih =>
    have ha : a.canUndo = false := hpre a (by simp)
    have hrec := ih (fun o ho => hpre o (by simp [ho]))
    simpa [List.find?, ha] using hrec

/-- find? for redoability skips a head segment of non-redoable entries. -/
theorem find_canRedo_append (pre rest : List UndoRedoOperation)
    (op : UndoRedoOperation) (hpre : ∀ o ∈ pre, o.canRedo = false)
    (hop : op.canRedo = true) :
    (pre ++ op :: rest).find? (fun o => o.canRedo) = some op := by
  induction pre with
  | nil => simp [List.find?, hop]
  | cons a pre ih =>
    have ha : a.canRedo = false := hpre a (by simp)
    have hrec := ih (fun o ho => hpre o (by simp [ho]))
    simpa [List.find?, ha] using hrec

/-- flipUndoFirst rewrites exactly the first undoable entry. -/
theorem flipUndoFirst_append (pre rest : List UndoRedoOperation)
    (op : UndoRedoOperation) (hpre : ∀ o ∈ pre, o.canUndo = false)
    (hop : op.canUndo = true) :
    flipUndoFirst (pre ++ op :: rest) =
      pre ++ ({ op with canUndo := false, canRedo := true } :: rest) := by
  induction pre with
  | nil => simp [flipUndoFirst, hop]
  | cons a pre ih =>
    have ha : a.canUndo = false := hpre a (by simp)
    have hrec := ih (fun o ho => hpre o (by simp [ho]))
    simpa [flipUndoFirst, ha] using hrec

/-- flipRedoFirst rewrites exactly the first redoable entry. -/
theorem flipRedoFirst_append (pre rest : List UndoRedoOperation)
    (op : UndoRedoOperation) (hpre : ∀ o ∈ pre, o.canRedo = false)
    (hop : op.canRedo = true) :
    flipRedoFirst (pre ++ op :: rest) =
      pre ++ ({ op with canUndo := true, canRedo := false } :: rest) := by
  induction pre with
  | nil => simp [flipRedoFirst, hop]
  | cons a pre ih =>
    have ha : a.canRedo = false := hpre a (by simp)
    have hrec := ih (fun o ho => hpre o (by simp [ho]))
    simpa [flipRedoFirst, ha] using hrec

/-- C7 (amended): the inverse law holds as soon as no stack entry newer than
the undo target is redo-eligible (in particular immediately after the target's
confirmation, since a push clears redo-eligibility of all older entries): undo
applies the target's before-state, the following redo reapplies its
after-state, and a further undo restores the before-state again. -/
theorem c7_amended_thm (s : OptimisticState) (u dv : String)
    (pre rest : List UndoRedoOperation) (op : UndoRedoOperation) (p : Product)
    (t1 t2 t3 : Nat)
    (hops : s.undoRedo u dv = pre ++ op :: rest)
    (hpreU : ∀ o ∈ pre, o.canUndo = false)
    (hpreR : ∀ o ∈ pre, o.canRedo = false)
    (hop : op.canUndo = true)
    (hp : s.products op.productId = some p) :
    let r1 := undoLastOperation s u dv t1
    let r2 := redoLastOperation r1.1 u dv t2
    let r3 := undoLastOperation r2.1 u dv t3
    (r1.1.products op.productId).map (fun q => (q.location, q.stock)) =
      some (op.beforeLocation, op.beforeStock) ∧
    (r2.1.products op.productId).map (fun q => (q.location, q.stock)) =
      some (op.afterLocation, op.afterStock) ∧
    (r3.1.products op.productId).map (fun q => (q.location, q.stock)) =
      some (op.beforeLocation, op.beforeStock) := by
  have hfind1 := find_canUndo_append pre rest op hpreU hop
  have hflip1 := flipUndoFirst_append pre rest op hpreU hop
  have hfind2 := find_canRedo_append pre rest
    { op with canUndo := false, canRedo := true } hpreR rfl
  have hflip2 := flipRedoFirst_append pre rest
    { op with canUndo := false, canRedo := true } hpreR rfl
  have hfind3 := find_canUndo_append pre rest
    { op with canUndo := true, canRedo := false } hpreU rfl
  simp only [undoLastOperation, redoLastOperation, hops, hfind1, hp, hflip1,
    hfind2, hflip2, hfind3, if_pos, and_self, ite_true, eq_self_iff_true,
    Option.map_some]
  simp

/-- A freshly confirmed stack entry for instantiating `c7_amended_thm`. -/
def c7WitnessOp : UndoRedoOperation :=
  { id := "oW"
    productId := "p1"
    userId := "u"
    deviceId := "d"
    beforeLocation := some "A010"
    beforeStock := 10
    afterLocation := some "B215"
    afterStock := 5
    timestamp := 1
    canUndo := true
    canRedo := false }

/-- State whose (u, d) stack holds exactly `c7WitnessOp`. -/
def c7WitnessState : OptimisticState :=
  { updates := fun _ => none
    products := fun k => if k = "p1" then some sampleProduct else none
    undoRedo := fun u dv => if u = "u" ∧ dv = "d" then [c7WitnessOp] else [] }

theorem c7_witness :
    ((undoLastOperation c7WitnessState "u" "d" 10).1.products "p1").map
      (fun q => (q.location, q.stock)) = some (some "A010", (10 : Int)) ∧
    ((redoLastOperation (undoLastOperation c7WitnessState "u" "d" 10).1
        "u" "d" 20).1.products "p1").map
      (fun q => (q.location, q.stock)) = some (some "B215", (5 : Int)) := by
  have h := c7_amended_thm c7WitnessState "u" "d" [] [] c7WitnessOp sampleProduct
    10 20 30 (by simp [c7WitnessState]) (by simp) (by simp) rfl
    (by simp [c7WitnessState, c7WitnessOp])
  exact ⟨h.1, h.2.1⟩

/-! Print job queue (print-queue.service.ts).  The redis sorted set
`print_queue` becomes a list of (score, member) pairs, the
`print_queue:processing:<id>` keys an association list carrying the lease
expiry, and `print_queue:stats` an explicit counter record. -/

/-- Print job priority. -/
inductive JobPriority
  | low
  | normal
  | high
  deriving Repr, DecidableEq

/-- Print job status. -/
inductive JobStatus
  | queued
  | processing
  | completed
  | failed
  deriving Repr, DecidableEq

/-- PrintQueueItem of print-queue.service.ts. -/
structure PrintQueueItem where
  id : String
  userId : String
  deviceId : String
  labelIds : List String
  priority : JobPriority
  status : JobStatus
  createdAt : Nat
  processedAt : Option Nat
  errorMessage : Option String
  retryCount : Nat
  maxRetries : Nat
  deriving Repr, DecidableEq

/-- `const priorityScores = { low: 1, normal: 5, high: 10 }`. -/
def priorityScore : JobPriority → Nat
  | .low => 1
  | .normal => 5
  | .high => 10

/-- The monotone counters kept under `print_queue:stats`. -/
structure QueueStats where
  enqueued : Nat
  completed : Nat
  failed : Nat
  retried : Nat
  deriving Repr, DecidableEq

/-- State touched by PrintQueueService: the scored queue members, the
processing entries with their lease expiry (ms), and the stats counters. -/
structure PrintQueueState where
  queue : List (Nat × PrintQueueItem)
  processing : List (String × PrintQueueItem × Nat)
  stats : QueueStats
  deriving Repr, DecidableEq

/-- An initially empty print queue. -/
def emptyPrintQueue : PrintQueueState :=
  { queue := [], processing := [], stats := ⟨0, 0, 0, 0⟩ }

/-- redis ZPOPMAX: remove and return the member with the highest score.  The
source relies on redis, which on a score tie pops the lexicographically
greatest member; the theorems below only use distinct scores, and this model
takes the first occurrence of the maximal score. -/
def zpopmax : List (Nat × PrintQueueItem) →
    Option ((Nat × PrintQueueItem) × List (Nat × PrintQueueItem))
  | [] => none
  | x :: xs =>
    match zpopmax xs with
    | none => some (x, [])
    | some (m, rest) => if m.1 > x.1 then some (m, x :: rest) else some (x, xs)

/-- PrintQueueService.enqueuePrintJob: build a queued item with retryCount 0
and maxRetries 3, score it `priorityScores[priority] * 1000 + Date.now()`, add
it to the sorted set and bump the enqueued counter.  The generated job id is a
parameter. -/
def enqueuePrintJob (s : PrintQueueState) (labelIds : List String)
    (userId deviceId : String) (priority : JobPriority) (jobId : String)
    (now : Nat) : PrintQueueState × String :=
  let item : PrintQueueItem :=
    { id := jobId
      userId := userId
      deviceId := deviceId
      labelIds := labelIds
      priority := priority
      status := .queued
      createdAt := now
      processedAt := none
      errorMessage := none
      retryCount := 0
      maxRetries := 3 }
  let score := priorityScore priority * 1000 + now
  ( { s with
      queue := s.queue ++ [(score, item)]
      stats := { s.stats with enqueued := s.stats.enqueued + 1 } },
    jobId )

/-- PrintQueueService.dequeueNextJob: pop the maximal score, mark the item
processing and store it under a lease key with the 300 s PROCESSING_TIMEOUT. -/
def dequeueNextJob (s : PrintQueueState) (now : Nat) :
    PrintQueueState × Option PrintQueueItem :=
  match zpopmax s.queue with
  | none => (s, none)
  | some ((_, item), rest) =>
    let item2 := { item with status := .processing, processedAt := some now }
    ( { s with
        queue := rest
        processing :=
          (item.id, item2, now + 300 * 1000) ::
            s.processing.filter (fun e => e.1 ≠ item.id) },
      some item2 )

/-- redis GET on a processing lease key: the entry is visible only while its
expiry lies in the future. -/
def getProcessing (s : PrintQueueState) (jobId : String) (now : Nat) :
    Option (PrintQueueItem × Nat) :=
  match s.processing.find? (fun e => e.1 = jobId) with
  | some (_, item, exp) => if now < exp then some (item, exp) else none
  | none => none

/-- PrintQueueService.failJob: bump retryCount and record the error; while
retries remain, re-enqueue at hard-coded normal priority (score
`5 * 1000 + Date.now()`) and count a retry, otherwise mark the item failed and
count a failure; in both branches the processing lease key is deleted. -/
def failJob (s : PrintQueueState) (jobId errorMessage : String) (now : Nat) :
    PrintQueueState × Bool :=
  match getProcessing s jobId now with
  | none => (s, false)
  | some (item, _) =>
    let item2 := { item with
      retryCount := item.retryCount + 1
      errorMessage := some errorMessage }
    if item2.retryCount < item2.maxRetries then
      let item3 := { item2 with status := .queued }
      let score := 5 * 1000 + now
      ( { s with
          queue := s.queue ++ [(score, item3)]
          processing := s.processing.filter (fun e => e.1 ≠ jobId)
          stats := { s.stats with retried := s.stats.retried + 1 } },
        true )
    else
      ( { s with
          processing := s.processing.filter (fun e => e.1 ≠ jobId)
          stats := { s.stats with failed := s.stats.failed + 1 } },
        true )

/-- PrintQueueService.completeJob: drop the lease key and count a completion
(the label store update is outside this model). -/
def completeJob (s : PrintQueueState) (jobId : String) (now : Nat) :
    PrintQueueState × Bool :=
  match getProcessing s jobId now with
  | none => (s, false)
  | some _ =>
    ( { s with
        processing := s.processing.filter (fun e => e.1 ≠ jobId)
        stats := { s.stats with completed := s.stats.completed + 1 } },
      true )

/-- Queue holding job A (high, t=1700000000000) then job B (normal, 6 s
later). -/
def c2QueueAB : PrintQueueState :=
  (enqueuePrintJob
    (enqueuePrintJob emptyPrintQueue ["l1"] "u1" "d1" .high "A"
      1700000000000).1
    ["l2"] "u2" "d1" .normal "B" 1700000006000).1

/-- Queue holding two normal-priority jobs C and D enqueued 1 ms apart. -/
def c2QueueCD : PrintQueueState :=
  (enqueuePrintJob
    (enqueuePrintJob emptyPrintQueue ["l3"] "u1" "d1" .normal "C"
      1700000100000).1
    ["l4"] "u1" "d1" .normal "D" 1700000100001).1

/-- C2 evaluation at the failing input.  The enqueue score is
`priorityWeight * 1000 + Date.now()`: the epoch-millisecond timestamp dwarfs
the ≤ 10000 priority term, so a normal-priority job enqueued 6 s after a
high-priority one carries the larger score and ZPOPMAX hands it out first; and
for two same-priority jobs the newer one always wins (LIFO, not FIFO). -/
theorem c2_priority_inversion :
    ((dequeueNextJob c2QueueAB 1700000007000).2.map PrintQueueItem.id) =
      some "B" ∧
    ((dequeueNextJob c2QueueCD 1700000100002).2.map PrintQueueItem.id) =
      some "D" := by
  decide

/-- C6 counterexample: a job that exhausts its retries vanishes.  One job is
enqueued, and three dequeue/fail rounds drive its retryCount to maxRetries (3):
the terminal failJob deletes the processing lease without re-enqueueing, so
afterwards the queue and the processing set are both empty — no per-job record
in a `failed` state remains observable, only the aggregate counters
(enqueued 1, retried 2, failed 1). -/
theorem c6_counterexample :
    let t := 1700000000000
    let e1 := enqueuePrintJob emptyPrintQueue ["l1"] "u1" "d1" .high "J" t
    let d1 := dequeueNextJob e1.1 (t + 1000)
    let f1 := failJob d1.1 "J" "impresora sin conexión" (t + 2000)
    let d2 := dequeueNextJob f1.1 (t + 3000)
    let f2 := failJob d2.1 "J" "impresora sin conexión" (t + 4000)
    let d3 := dequeueNextJob f2.1 (t + 5000)
    let f3 := failJob d3.1 "J" "impresora sin conexión" (t + 6000)
    f3.2 = true ∧ f3.1.queue = [] ∧ f3.1.processing = [] ∧
    f3.1.stats = ⟨1, 0, 1, 2⟩ := by
  decide

/-- C6 (amended): a failing job is never lost while retries remain — it is
re-enqueued (at hard-coded normal-priority score) and the retried counter is
bumped; but once retries are exhausted the terminal failJob removes the job
from the processing set without re-enqueueing it, leaving only the incremented
aggregate failed counter — no per-job failed record stays observable. -/
theorem c6_amended_thm (s : PrintQueueState) (jobId msg : String) (now : Nat)
    (item : PrintQueueItem) (exp : Nat)
    (hget : getProcessing s jobId now = some (item, exp)) :
    (item.retryCount + 1 < item.maxRetries →
      (failJob s jobId msg now).2 = true ∧
      (failJob s jobId msg now).1.queue =
        s.queue ++ [(5 * 1000 + now,
          { item with
            retryCount := item.retryCount + 1
            errorMessage := some msg
            status := .queued })] ∧
      (failJob s jobId msg now).1.stats.retried = s.stats.retried + 1) ∧
    (¬ item.retryCount + 1 < item.maxRetries →
      (failJob s jobId msg now).2 = true ∧
      (failJob s jobId msg now).1.queue = s.queue ∧
      (failJob s jobId msg now).1.processing.find? (fun e => e.1 = jobId) = none ∧
      (failJob s jobId msg now).1.stats.failed = s.stats.failed + 1) := by
  constructor
  · intro h
    simp [failJob, hget, h]
  · intro h
    refine ⟨by simp [failJob, hget, h], by simp [failJob, hget, h], ?_,
      by simp [failJob, hget, h]⟩
    simp only [failJob, hget, h, if_neg, ite_false]
    rw [List.find?_eq_none]
    intro e he
    have := List.of_mem_filter he
    simpa using this

/-- A processing entry two failures deep, for instantiating the terminal
branch of `c6_amended_thm`. -/
def c6ExhaustedItem : PrintQueueItem :=
  { id := "J2"
    userId := "u1"
    deviceId := "d1"
    labelIds := ["l1"]
    priority := .high
    status := .processing
    createdAt := 1700000000000
    processedAt := some 1700000005000
    errorMessage := some "impresora sin conexión"
    retryCount := 2
    maxRetries := 3 }

/-- A fresh processing entry, for instantiating the retry branch of
`c6_amended_thm`. -/
def c6FreshItem : PrintQueueItem :=
  { c6ExhaustedItem with id := "J1", retryCount := 0 }

/-- Print-queue state holding the two processing entries above. -/
def c6WitnessState : PrintQueueState :=
  { queue := []
    processing :=
      [("J1", c6FreshItem, 1700000300000), ("J2", c6ExhaustedItem, 1700000300000)]
    stats := ⟨2, 0, 0, 2⟩ }

theorem c6_witness :
    (failJob c6WitnessState "J1" "e" 1700000010000).1.stats.retried = 3 ∧
    (failJob c6WitnessState "J2" "e" 1700000010000).1.queue = [] ∧
    (failJob c6WitnessState "J2" "e" 1700000010000).1.processing.find?
      (fun e => e.1 = "J2") = none ∧
    (failJob c6WitnessState "J2" "e" 1700000010000).1.stats.failed = 1 := by
  have h1 := c6_amended_thm c6WitnessState "J1" "e" 1700000010000 c6FreshItem
    1700000300000 (by decide)
  have h2 := c6_amended_thm c6WitnessState "J2" "e" 1700000010000
    c6ExhaustedItem 1700000300000 (by decide)
  have r1 := h1.1 (by decide)
  have r2 := h2.2 (by decide)
  exact ⟨r1.2.2, r2.2.1, r2.2.2.1, r2.2.2.2⟩

/-! Adaptive product cache (cache.service.ts).  The `colocacion:product:<barcode>`
entries and `colocacion:frequent:<barcode>` counters are association lists whose
values carry their expiry instant (ms); `colocacion:cache:stats` is the explicit
hit/miss/total record. -/

/-- Lookup in an expiring key/value list, ignoring expiry. -/
def kvFind {α : Type} (l : List (String × α × Nat)) (k : String) :
    Option (α × Nat) :=
  match l.find? (fun e => e.1 = k) with
  | some (_, v, e) => some (v, e)
  | none => none

/-- redis GET / INCR visibility: an entry exists only while unexpired. -/
def kvGetAlive {α : Type} (l : List (String × α × Nat)) (k : String)
    (now : Nat) : Option (α × Nat) :=
  match kvFind l k with
  | some (v, e) => if now < e then some (v, e) else none
  | none => none

/-- SETEX / EXPIRE: (re)bind a key with a payload and expiry instant. -/
def kvSet {α : Type} (l : List (String × α × Nat)) (k : String) (v : α)
    (e : Nat) : List (String × α × Nat) :=
  (k, v, e) :: l.filter (fun x => x.1 ≠ k)

/-- State touched by CacheService. -/
structure CacheState where
  entries : List (String × Product × Nat)
  freq : List (String × Nat × Nat)
  hits : Nat
  misses : Nat
  total : Nat
  deriving Repr, DecidableEq

/-- CacheService.markAsFrequent: INCR the per-barcode counter (a fresh counter
gets the 24 h TTL, an existing one keeps its TTL — INCR does not touch it);
once the counter reaches 5 and the cache entry is still alive, the entry's TTL
is extended to FREQUENT_CACHE_TTL (1800 s) from now. -/
def markAsFrequent (s : CacheState) (barcode : String) (now : Nat) : CacheState :=
  let cf :=
    match kvGetAlive s.freq barcode now with
    | some (c, e) => (c + 1, e)
    | none => (1, now + 86400 * 1000)
  let s1 := { s with freq := kvSet s.freq barcode cf.1 cf.2 }
  if 5 ≤ cf.1 then
    match kvGetAlive s1.entries barcode now with
    | some (p, _) =>
      { s1 with entries := kvSet s1.entries barcode p (now + 1800 * 1000) }
    | none => s1
  else s1

/-- CacheService.getProduct: a live entry is a hit (bump hits and total, then
markAsFrequent) returning the snapshot; otherwise a miss (bump misses and
total) returning nothing. -/
def getProduct (s : CacheState) (barcode : String) (now : Nat) :
    CacheState × Option Product :=
  match kvGetAlive s.entries barcode now with
  | some (p, _) =>
    let s1 := { s with hits := s.hits + 1, total := s.total + 1 }
    (markAsFrequent s1 barcode now, some p)
  | none => ({ s with misses := s.misses + 1, total := s.total + 1 }, none)

/-- Cache state holding one live entry and no frequency counter yet. -/
def c9State : CacheState :=
  { entries := [("1234567890123", sampleProduct, 300000)]
    freq := []
    hits := 0
    misses := 0
    total := 0 }

/-- C9 counterexample: the frequency counter's 24 h TTL is not rolling.  Two
hits on the same barcode at t = 0 and t = 100 leave the counter at 2 with
expiry 86400000 — set when the counter was created and not refreshed by the
second hit (a rolling TTL would read 100 + 86400000). -/
theorem c9_counterexample :
    let r1 := getProduct c9State "1234567890123" 0
    let r2 := getProduct r1.1 "1234567890123" 100
    kvFind r2.1.freq "1234567890123" = some (2, 86400000) ∧
    (kvFind r2.1.freq "1234567890123").map Prod.snd ≠ some (100 + 86400000) ∧
    r2.1.hits = 2 ∧ r2.1.total = 2 := by
  decide

/-- A kvSet binding is what kvFind returns for its key. -/
theorem kvFind_kvSet {α : Type} (l : List (String × α × Nat)) (k : String)
    (v : α) (e : Nat) : kvFind (kvSet l k v e) k = some (v, e) := by
  simp [kvFind, kvSet, List.find?]

/-- C9 (amended): every hit on a live entry increments the global hit and
total counters and the per-barcode frequency counter, whose expiry is set once
at creation and left untouched by later hits (not rolling); the hit that
brings the counter to 5 while it is alive extends the entry's TTL to the
frequent value (1800 s from now), earlier hits leave the entry's expiry alone;
and every miss increments the global miss and total counters. -/
theorem c9_amended_thm (s : CacheState) (barcode : String) (now : Nat)
    (p : Product) (eexp c fexp : Nat)
    (hentry : kvFind s.entries barcode = some (p, eexp))
    (he : now < eexp)
    (hfreq : kvFind s.freq barcode = some (c, fexp))
    (hf : now < fexp) :
    (getProduct s barcode now).2 = some p ∧
    (getProduct s barcode now).1.hits = s.hits + 1 ∧
    (getProduct s barcode now).1.total = s.total + 1 ∧
    kvFind (getProduct s barcode now).1.freq barcode = some (c + 1, fexp) ∧
    (5 ≤ c + 1 →
      kvFind (getProduct s barcode now).1.entries barcode =
        some (p, now + 1800 * 1000)) ∧
    (¬ 5 ≤ c + 1 →
      kvFind (getProduct s barcode now).1.entries barcode = some (p, eexp)) ∧
    (∀ s2 : CacheState, ∀ b2 : String,
      kvGetAlive s2.entries b2 now = none →
      (getProduct s2 b2 now).1.misses = s2.misses + 1 ∧
      (getProduct s2 b2 now).1.total = s2.total + 1 ∧
      (getProduct s2 b2 now).2 = none) := by
  have hgete : kvGetAlive s.entries barcode now = some (p, eexp) := by
    simp [kvGetAlive, hentry, he]
  have hgetf : kvGetAlive s.freq barcode now = some (c, fexp) := by
    simp [kvGetAlive, hfreq, hf]
  have hkey : getProduct s barcode now =
      (if 5 ≤ c + 1 then
        { entries := kvSet s.entries barcode p (now + 1800 * 1000)
          freq := kvSet s.freq barcode (c + 1) fexp
          hits := s.hits + 1
          misses := s.misses
          total := s.total + 1 }
      else
        { entries := s.entries
          freq := kvSet s.freq barcode (c + 1) fexp
          hits := s.hits + 1
          misses := s.misses
          total := s.total + 1 }, some p) := by
    by_cases h5 : 5 ≤ c + 1 <;>
      simp [getProduct, markAsFrequent, hgete, hgetf, h5]
  refine ⟨?_, ?_, ?_, ?_, ?_, ?_, ?_⟩
  · by_cases h5 : 5 ≤ c + 1 <;> simp [hkey, h5]
  · by_cases h5 : 5 ≤ c + 1 <;> simp [hkey, h5]
  · by_cases h5 : 5 ≤ c + 1 <;> simp [hkey, h5]
  · by_cases h5 : 5 ≤ c + 1 <;> simp [hkey, h5, kvFind_kvSet]
  · intro h5
    simp [hkey, h5, kvFind_kvSet]
  · intro h5
    simp [hkey, h5, hentry]
  · intro s2 b2 hmiss
    simp [getProduct, hmiss]

/-- Cache state whose frequency counter stands at 4, one hit short of
promotion. -/
def c9WitnessState : CacheState :=
  { entries := [("b", sampleProduct, 300000)]
    freq := [("b", 4, 86400000)]
    hits := 4
    misses := 0
    total := 4 }

theorem c9_witness :
    (getProduct c9WitnessState "b" 1000).2 = some sampleProduct ∧
    kvFind (getProduct c9WitnessState "b" 1000).1.freq "b" =
      some (5, 86400000) ∧
    kvFind (getProduct c9WitnessState "b" 1000).1.entries "b" =
      some (sampleProduct, 1000 + 1800 * 1000) := by
  have h := c9_amended_thm c9WitnessState "b" 1000 sampleProduct 300000 4
    86400000 (by decide) (by decide) (by decide) (by decide)
  exact ⟨h.1, h.2.2.2.1, h.2.2.2.2.1 (by decide)⟩

/-! Sync engine (sync.service.ts).  The Odoo connector is an external RPC
collaborator: it enters the model as a function from the odoo product id to
the OdooResponse the connector returns.  The product table is an association
list keyed by the local product id; cache invalidations are recorded as a
trace of barcodes. -/

/-- The Odoo-side fields the sync engine compares (`default_code`, `name`,
`qty_available`, `active`); nullable strings are `Option`. -/
structure OdooProduct where
  defaultCode : Option String
  name : Option String
  qtyAvailable : Int
  active : Bool
  deriving Repr, DecidableEq

/-- OdooResponse of odoo-connector.service.ts, specialised to product data. -/
structure OdooResponse where
  success : Bool
  data : Option OdooProduct
  error : Option String
  deriving Repr, DecidableEq

/-- ConflictResolution.strategy. -/
inductive SyncStrategy
  | odoo_wins
  | local_wins
  | timestamp
  | manual
  deriving Repr, DecidableEq

/-- A conflicting field value is a string, a nullable string, or a number. -/
inductive FieldValue
  | str (s : String)
  | optStr (s : Option String)
  | num (n : Int)
  deriving Repr, DecidableEq

/-- SyncConflict of sync.service.ts (the `resolution` marker carries no
information the callers read and is omitted). -/
structure SyncConflict where
  productId : String
  field : String
  localValue : FieldValue
  odooValue : FieldValue
  localTimestamp : Nat
  odooTimestamp : Nat
  deriving Repr, DecidableEq

/-- SyncResult of sync.service.ts.  `duration` is a wall-clock measurement
(`Date.now() - startTime`); the model evaluates a call at a single instant, so
it is always 0 here. -/
structure SyncResult where
  success : Bool
  productsProcessed : Nat
  productsUpdated : Nat
  productsFailed : Nat
  errors : List String
  duration : Nat
  deriving Repr, DecidableEq

/-- State touched by SyncService: the product table, the trace of cache
invalidations, the `sync_conflicts:<productId>:<field>` keys (conflict plus
saving user, with expiry), and the `sync_lock` key (expiry instant). -/
structure SyncState where
  products : List (String × Product)
  invalidated : List String
  manualConflicts : List ((String × String) × (SyncConflict × String) × Nat)
  syncLock : Option Nat
  deriving Repr, DecidableEq

/-- Product.findByPk on the association-list table. -/
def storeFind (l : List (String × Product)) (k : String) : Option Product :=
  match l.find? (fun e => e.1 = k) with
  | some (_, p) => some p
  | none => none

/-- product.save(): rebind the row under its primary key. -/
def storeSave (l : List (String × Product)) (k : String) (p : Product) :
    List (String × Product) :=
  (k, p) :: l.filter (fun e => e.1 ≠ k)

/-- JS `value || fallback` on a nullable string: null/undefined and the empty
string are falsy. -/
def jsStrOr (v : Option String) (d : String) : String :=
  match v with
  | some str => if str = "" then d else str
  | none => d

/-- The status transform `(active) => active ? "active" : "inactive"`. -/
def odooStatusOf (o : OdooProduct) : String :=
  if o.active then "active" else "inactive"

/-- SyncService.detectConflicts: compare reference/default_code,
description/name, stock/qty_available and status/active (transformed); a
strict-inequality on any pair yields a conflict whose Odoo timestamp is
synthetic "now". -/
def detectConflicts (p : Product) (o : OdooProduct) (now : Nat) :
    List SyncConflict :=
  (if o.defaultCode ≠ some p.reference then
    [{ productId := p.id
       field := "reference"
       localValue := .str p.reference
       odooValue := .optStr o.defaultCode
       localTimestamp := p.updatedAt
       odooTimestamp := now }]
   else []) ++
  (if o.name ≠ some p.description then
    [{ productId := p.id
       field := "description"
       localValue := .str p.description
       odooValue := .optStr o.name
       localTimestamp := p.updatedAt
       odooTimestamp := now }]
   else []) ++
  (if p.stock ≠ o.qtyAvailable then
    [{ productId := p.id
       field := "stock"
       localValue := .num p.stock
       odooValue := .num o.qtyAvailable
       localTimestamp := p.updatedAt
       odooTimestamp := now }]
   else []) ++
  (if p.status ≠ odooStatusOf o then
    [{ productId := p.id
       field := "status"
       localValue := .str p.status
       odooValue := .str (odooStatusOf o)
       localTimestamp := p.updatedAt
       odooTimestamp := now }]
   else [])

/-- The value the `switch (resolution.strategy)` inside resolveConflicts
computes for one conflict.  The source logs this value and then drops it — no
caller ever receives it (the `manual` arm returns before computing one; the
`default` arm of the switch picks the Odoo value). -/
def resolvedValue (c : SyncConflict) (strategy : SyncStrategy) : FieldValue :=
  match strategy with
  | .odoo_wins => c.odooValue
  | .local_wins => c.localValue
  | .timestamp =>
    if c.localTimestamp > c.odooTimestamp then c.localValue else c.odooValue
  | .manual => c.odooValue

/-- SyncService.saveConflictForManualResolution: persist the conflict (with
the requesting user) under `sync_conflicts:<productId>:<field>` for 24 h. -/
def saveConflictForManualResolution (s : SyncState) (c : SyncConflict)
    (userId : String) (now : Nat) : SyncState :=
  { s with manualConflicts :=
      ((c.productId, c.field), (c, userId), now + 86400 * 1000) ::
        s.manualConflicts.filter (fun e => e.1 ≠ (c.productId, c.field)) }

/-- SyncService.resolveConflicts: iterate the conflicts; on the `manual`
strategy the first conflict is stored and the loop returns false immediately;
every other strategy computes `resolvedValue` (logged and discarded by the
source) and the loop ends returning true without touching any state. -/
def resolveConflicts (s : SyncState) (conflicts : List SyncConflict)
    (strategy : SyncStrategy) (userId : String) (now : Nat) :
    SyncState × Bool :=
  match conflicts with
  | [] => (s, true)
  | c :: rest =>
    match strategy with
    | .manual => (saveConflictForManualResolution s c userId now, false)
    | _ => resolveConflicts s rest strategy userId now

/-- SyncService.applyOdooChanges: field by field, when the strict comparison
differs, write the Odoo value (strings through the `|| fallback` guard; the
numeric `qty_available || 0` guard is the identity on integers); when anything
changed, stamp `last_odoo_sync = now`. -/
def applyOdooChanges (p : Product) (o : OdooProduct) (now : Nat) :
    Product × Bool :=
  let s1 : Product × Bool :=
    if o.defaultCode = some p.reference then (p, false)
    else ({ p with reference := jsStrOr o.defaultCode p.reference }, true)
  let s2 : Product × Bool :=
    if o.name = some s1.1.description then s1
    else ({ s1.1 with description := jsStrOr o.name s1.1.description }, true)
  let s3 : Product × Bool :=
    if s2.1.stock = o.qtyAvailable then s2
    else ({ s2.1 with stock := o.qtyAvailable }, true)
  let s4 : Product × Bool :=
    if s3.1.status = odooStatusOf o then s3
    else ({ s3.1 with status := odooStatusOf o }, true)
  if s4.2 then ({ s4.1 with lastOdooSync := some now }, true) else (s4.1, false)

/-- SyncService.syncProduct: look up the local product, fetch the Odoo record
through the connector, detect and (nominally) resolve conflicts, then apply
the Odoo values; only when something changed is the row saved, the cache
invalidated and the result a success.  Audit logging is an external effect
outside the model. -/
def syncProduct (s : SyncState) (odoo : Nat → OdooResponse)
    (productId userId : String) (strategy : SyncStrategy) (now : Nat) :
    SyncState × SyncResult :=
  match storeFind s.products productId with
  | none =>
    (s, { success := false, productsProcessed := 0, productsUpdated := 0,
          productsFailed := 0, errors := ["Producto no encontrado localmente"],
          duration := 0 })
  | some p =>
    let resp := odoo p.odooProductId
    match resp.success, resp.data with
    | true, some o =>
      let conflicts := detectConflicts p o now
      let step :=
        if conflicts.isEmpty then (s, true)
        else resolveConflicts s conflicts strategy userId now
      if step.2 then
        let applied := applyOdooChanges p o now
        if applied.2 then
          ( { step.1 with
              products := storeSave step.1.products productId applied.1
              invalidated := p.barcode :: step.1.invalidated },
            { success := true, productsProcessed := 1, productsUpdated := 1,
              productsFailed := 0, errors := [], duration := 0 } )
        else
          (step.1,
            { success := false, productsProcessed := 1, productsUpdated := 0,
              productsFailed := 0, errors := [], duration := 0 })
      else
        (step.1,
          { success := false, productsProcessed := 1, productsUpdated := 0,
            productsFailed := 0, errors := ["Conflictos no resueltos"],
            duration := 0 })
    | _, _ =>
      (s, { success := false, productsProcessed := 1, productsUpdated := 0,
            productsFailed := 1,
            errors := ["Error obteniendo producto desde Odoo: " ++
              resp.error.getD "undefined"],
            duration := 0 })

/-- SyncService.acquireSyncLock: redis SET sync_lock NX PX 30000 — succeeds
only when the key is absent or expired, binding it for SYNC_TIMEOUT = 30000 ms
(30 seconds). -/
def acquireSyncLock (s : SyncState) (now : Nat) : SyncState × Bool :=
  match s.syncLock with
  | some e =>
    if now < e then (s, false)
    else ({ s with syncLock := some (now + 30000) }, true)
  | none => ({ s with syncLock := some (now + 30000) }, true)

/-- SyncService.releaseSyncLock: DEL sync_lock. -/
def releaseSyncLock (s : SyncState) : SyncState := { s with syncLock := none }

/-- The fullSync selection predicate: active products never synced or last
synced strictly before the one-hour cutoff. -/
def needsSync (cutoff : Nat) (p : Product) : Bool :=
  decide (p.status = "active") &&
    (match p.lastOdooSync with
     | none => true
     | some t => decide (t < cutoff))

/-- ORDER BY last_odoo_sync ASC NULLS FIRST as a key comparison (the database
order among equal keys is unspecified; this model keeps insertion order). -/
def syncKeyLe : Option Nat → Option Nat → Bool
  | none, _ => true
  | some _, none => false
  | some a, some b => decide (a ≤ b)

/-- Stable insertion step for the fullSync ordering. -/
def insertBySyncAge (p : Product) : List Product → List Product
  | [] => [p]
  | q :: rest =>
    if syncKeyLe p.lastOdooSync q.lastOdooSync then p :: q :: rest
    else q :: insertBySyncAge p rest

/-- Insertion sort realising ORDER BY last_odoo_sync ASC NULLS FIRST. -/
def sortBySyncAge : List Product → List Product
  | [] => []
  | p :: rest => insertBySyncAge p (sortBySyncAge rest)

/-- The per-product loop of fullSync: sync each selected product as "SYSTEM",
bump processed, fold successes into productsUpdated and failures into
productsFailed plus a per-product error line (the 100 ms inter-item pause is
pure timing and outside the model). -/
def fullSyncLoop (odoo : Nat → OdooResponse) (strategy : SyncStrategy)
    (now : Nat) : List Product → SyncState → SyncResult →
    SyncState × SyncResult
  | [], s, acc => (s, acc)
  | p :: rest, s, acc =>
    let step := syncProduct s odoo p.id "SYSTEM" strategy now
    let acc1 := { acc with productsProcessed := acc.productsProcessed + 1 }
    let acc2 :=
      if step.2.success then
        { acc1 with productsUpdated := acc1.productsUpdated + step.2.productsUpdated }
      else
        { acc1 with
          productsFailed := acc1.productsFailed + 1
          errors := acc1.errors ++
            [p.reference ++ ": " ++ String.intercalate ", " step.2.errors] }
    fullSyncLoop odoo strategy now rest step.1 acc2

/-- SyncService.fullSync: under the mutual-exclusion lock, select up to
maxProducts stale active products (oldest first), sync each, release the lock
and report success only when nothing failed; when the lock is already held the
call fails fast with "Sincronización ya en progreso" and touches nothing. -/
def fullSync (s : SyncState) (odoo : Nat → OdooResponse) (maxProducts : Nat)
    (strategy : SyncStrategy) (now : Nat) : SyncState × SyncResult :=
  let lockStep := acquireSyncLock s now
  if lockStep.2 then
    let cutoff := now - 3600 * 1000
    let toSync :=
      (sortBySyncAge ((lockStep.1.products.map Prod.snd).filter
        (needsSync cutoff))).take maxProducts
    let run := fullSyncLoop odoo strategy now toSync lockStep.1
      { success := true, productsProcessed := 0, productsUpdated := 0,
        productsFailed := 0, errors := [], duration := 0 }
    (releaseSyncLock run.1, { run.2 with success := run.2.productsFailed == 0 })
  else
    (lockStep.1,
      { success := false, productsProcessed := 0, productsUpdated := 0,
        productsFailed := 0, errors := ["Sincronización ya en progreso"],
        duration := 0 })

/-- Odoo record disagreeing with `sampleProduct` only on stock (7 vs 10). -/
def stockMismatchOdoo : OdooProduct :=
  { defaultCode := some "R1", name := some "D1", qtyAvailable := 7, active := true }

/-- Connector returning `stockMismatchOdoo` for odoo product id 42. -/
def stockMismatchOdooFn : Nat → OdooResponse := fun i =>
  if i = 42 then { success := true, data := some stockMismatchOdoo, error := none }
  else { success := false, data := none, error := some "sin datos" }

/-- Sync state holding exactly `sampleProduct` and no lock. -/
def sampleSyncState : SyncState :=
  { products := [("p1", sampleProduct)]
    invalidated := []
    manualConflicts := []
    syncLock := none }

/-- C3 evaluation at the failing input: a product with local stock 10 and ERP
stock 7 synced under `local_wins`.  The only detected conflict is on stock and
its resolved value under `local_wins` is the local 10 — yet after the sync the
stored product carries the ERP value 7, because applyOdooChanges writes the
ERP fields unconditionally and the resolved values are discarded. -/
theorem c3_local_wins_discarded :
    ((storeFind (syncProduct sampleSyncState stockMismatchOdooFn "p1" "u1"
        .local_wins 2000).1.products "p1").map Product.stock) = some 7 ∧
    (syncProduct sampleSyncState stockMismatchOdooFn "p1" "u1"
      .local_wins 2000).2.success = true ∧
    (syncProduct sampleSyncState stockMismatchOdooFn "p1" "u1"
      .local_wins 2000).2.productsUpdated = 1 ∧
    (detectConflicts sampleProduct stockMismatchOdoo 2000).map
      (fun c => resolvedValue c .local_wins) = [.num 10] := by
  decide

/-- C4: when the sync lock is held and unexpired, fullSync returns the whole
state unchanged together with success=false, zero processed products and the
"sync already in progress" error; and acquiring the lock on a free key is
set-if-not-exists binding it for 30000 ms (30 seconds). -/
theorem c4_fullSync_lock_fail_fast (s : SyncState) (odoo : Nat → OdooResponse)
    (maxProducts : Nat) (strategy : SyncStrategy) (now e : Nat)
    (hlock : s.syncLock = some e) (halive : now < e) :
    fullSync s odoo maxProducts strategy now =
      (s, { success := false, productsProcessed := 0, productsUpdated := 0,
            productsFailed := 0, errors := ["Sincronización ya en progreso"],
            duration := 0 }) ∧
    (∀ s2 : SyncState, ∀ t : Nat, s2.syncLock = none →
      acquireSyncLock s2 t = ({ s2 with syncLock := some (t + 30000) }, true)) := by
  constructor
  · simp [fullSync, acquireSyncLock, hlock, halive]
  · intro s2 t h
    simp [acquireSyncLock, h]

/-- Sync state with the mutual-exclusion lock held until epoch ms
1700000030000. -/
def lockedSyncState : SyncState :=
  { sampleSyncState with syncLock := some 1700000030000 }

theorem c4_witness :
    fullSync lockedSyncState stockMismatchOdooFn 100 .timestamp 1700000000000 =
      (lockedSyncState,
        { success := false, productsProcessed := 0, productsUpdated := 0,
          productsFailed := 0, errors := ["Sincronización ya en progreso"],
          duration := 0 }) ∧
    acquireSyncLock sampleSyncState 1700000000000 =
      ({ sampleSyncState with syncLock := some (1700000000000 + 30000) }, true) := by
  have h := c4_fullSync_lock_fail_fast lockedSyncState stockMismatchOdooFn 100
    .timestamp 1700000000000 1700000030000 rfl (by decide)
  exact ⟨h.1, h.2 sampleSyncState 1700000000000 rfl⟩

/-- C10: syncing a product whose compared fields all already equal the ERP
values detects no conflict and applies no change, so the call returns
success=false with productsUpdated=0, productsFailed=0 and an empty error
list, leaving the state untouched; consequently fullSync over a store holding
exactly that (active, never-synced) product counts it in productsFailed and
reports overall failure. -/
theorem c10_noop_sync_not_success (s : SyncState) (odoo : Nat → OdooResponse)
    (productId userId : String) (strategy : SyncStrategy) (now : Nat)
    (p : Product) (o : OdooProduct)
    (hp : storeFind s.products productId = some p)
    (ho : odoo p.odooProductId =
      { success := true, data := some o, error := none })
    (href : o.defaultCode = some p.reference)
    (hdesc : o.name = some p.description)
    (hstock : o.qtyAvailable = p.stock)
    (hstatus : p.status = odooStatusOf o) :
    syncProduct s odoo productId userId strategy now =
      (s, { success := false, productsProcessed := 1, productsUpdated := 0,
            productsFailed := 0, errors := [], duration := 0 }) ∧
    (∀ maxProducts : Nat, s.products = [(p.id, p)] → s.syncLock = none →
      1 ≤ maxProducts → p.lastOdooSync = none → o.active = true →
      (fullSync s odoo maxProducts strategy now).2.productsFailed = 1 ∧
      (fullSync s odoo maxProducts strategy now).2.productsProcessed = 1 ∧
      (fullSync s odoo maxProducts strategy now).2.success = false) := by
  have hnoconf : detectConflicts p o now = [] := by
    simp [detectConflicts, href, hdesc, hstock, hstatus]
  have happ : applyOdooChanges p o now = (p, false) := by
    simp [applyOdooChanges, href, hdesc, hstock, hstatus]
  have hmain : syncProduct s odoo productId userId strategy now =
      (s, { success := false, productsProcessed := 1, productsUpdated := 0,
            productsFailed := 0, errors := [], duration := 0 }) := by
    simp [syncProduct, hp, ho, hnoconf, happ]
  refine ⟨hmain, ?_⟩
  intro maxProducts hstore hnolock hmax hlast hact
  have hactive : p.status = "active" := by
    simpa [odooStatusOf, hact] using hstatus
  have hneeds : needsSync (now - 3600 * 1000) p = true := by
    simp [needsSync, hactive, hlast]
  have hmain2 : syncProduct
      { products := [(p.id, p)], invalidated := s.invalidated,
        manualConflicts := s.manualConflicts, syncLock := some (now + 30000) }
      odoo p.id "SYSTEM" strategy now =
      ({ products := [(p.id, p)], invalidated := s.invalidated,
         manualConflicts := s.manualConflicts, syncLock := some (now + 30000) },
        { success := false, productsProcessed := 1, productsUpdated := 0,
          productsFailed := 0, errors := [], duration := 0 }) := by
    have hp2 : storeFind [(p.id, p)] p.id = some p := by
      simp [storeFind, List.find?]
    simp [syncProduct, hp2, ho, hnoconf, happ]
  obtain ⟨m, rfl⟩ : ∃ m, maxProducts = m + 1 :=
    ⟨maxProducts - 1, by omega⟩
  refine ⟨?_, ?_, ?_⟩ <;>
    simp [fullSync, acquireSyncLock, hnolock, hstore, hneeds, sortBySyncAge,
      insertBySyncAge, fullSyncLoop, hmain2]

/-- Odoo record agreeing with `sampleProduct` on every compared field. -/
def matchingOdoo : OdooProduct :=
  { defaultCode := some "R1", name := some "D1", qtyAvailable := 10,
    active := true }

/-- Connector returning `matchingOdoo` for odoo product id 42. -/
def matchingOdooFn : Nat → OdooResponse := fun i =>
  if i = 42 then { success := true, data := some matchingOdoo, error := none }
  else { success := false, data := none, error := some "sin datos" }

theorem c10_witness :
    syncProduct sampleSyncState matchingOdooFn "p1" "u1" .timestamp 2000 =
      (sampleSyncState,
        { success := false, productsProcessed := 1, productsUpdated := 0,
          productsFailed := 0, errors := [], duration := 0 }) ∧
    (fullSync sampleSyncState matchingOdooFn 100 .timestamp
      2000).2.productsFailed = 1 := by
  have h := c10_noop_sync_not_success sampleSyncState matchingOdooFn
    "p1" "u1" .timestamp 2000 sampleProduct matchingOdoo
    (by decide) (by decide) rfl rfl (by decide) rfl
  exact ⟨h.1, (h.2 100 rfl rfl (by decide) rfl rfl).1⟩

end Selk
